import Mathlib

/-
Verification of the custom user entity defined in src/core/models.py.

The source file declares `class User(AbstractUser)` with a nested
`class Meta: db_table = dd_users` and a method returning self.username as
the textual representation.  The base class AbstractUser belongs to the
external Authentication Framework and is not part of this repository; its
field set and its behaviour (uniqueness of username, persistence) are
modelled from the specification, as marked on each such definition.
-/

namespace Core

/-- Modelled from the spec: the field set of the external Authentication
Framework base user abstraction (AbstractUser), which is not part of this
repository.  The spec lists: unique identifier, username, password
credential, email, active/staff/superuser flags, date-joined and
last-login timestamps, and many-to-many relations to groups and
permissions. -/
structure AbstractUser where
  id : Nat
  username : String
  password : String
  email : String
  is_active : Bool
  is_staff : Bool
  is_superuser : Bool
  date_joined : Nat
  last_login : Option Nat
  groups : List Nat
  user_permissions : List Nat
deriving DecidableEq

/-- The custom user entity of src/core/models.py: `class User(AbstractUser)`
declares no model field of its own, so the record extends AbstractUser with
no additional field. -/
structure User extends AbstractUser
deriving DecidableEq

/-- `db_table = 'dd_users'` in `class Meta` of src/core/models.py. -/
def User.Meta.db_table : String := "dd_users"

/-- Modelled from the spec: the default backing-store identifier the
framework would derive for this model (app label core, model name user)
when `Meta.db_table` is not set. -/
def defaultDbTable : String := "core_user"

/-- The backing-store identifier used when persisting a given instance:
per src/core/models.py it is the fixed `Meta.db_table` constant,
independent of the instance. -/
def User.dbTableOf (_ : User) : String := User.Meta.db_table

/-- The `__str__` method of src/core/models.py: `return self.username`. -/
def User.toStr (u : User) : String := u.username

/-- The embedding of a call to `User.__str__` as a (returned value,
post-state) pair: per src/core/models.py the method reads
`self.username` and assigns to nothing, so the post-state is the
receiver unchanged. -/
def User.strCall (u : User) : String × User := (u.username, u)

/-- Uniqueness-violation error, modelled from the spec: the framework base
class declares username unique, and a duplicate creation fails with a
uniqueness-violation error. -/
inductive CreateError where
  | uniqueViolation
deriving DecidableEq

/-- Modelled from the spec: the framework password-hashing step used by
credential storage and validation. -/
def hashPassword (raw : String) : String := "hashed:" ++ raw

/-- Modelled from the spec: credential validation on the framework base
abstraction — the stored credential matches the hash of the raw input. -/
def AbstractUser.check_password (a : AbstractUser) (raw : String) : Bool :=
  hashPassword raw == a.password

/-- Modelled from the spec: permission check on the framework base
abstraction — an active superuser has every permission, otherwise the
permission must be among the granted ones. -/
def AbstractUser.has_perm (a : AbstractUser) (p : Nat) : Bool :=
  a.is_active && (a.is_superuser || a.user_permissions.contains p)

/-- Modelled from the spec: the backing store of framework base records. -/
abbrev BaseDB := List AbstractUser

/-- Modelled from the spec: creation on the framework base abstraction —
username is declared unique, so creating a record whose username already
exists in the store fails with a uniqueness violation and leaves the
store unchanged; otherwise the record is persisted. -/
def AbstractUser.create (db : BaseDB) (a : AbstractUser) :
    Except CreateError BaseDB :=
  if db.any (fun v => v.username == a.username) then
    Except.error CreateError.uniqueViolation
  else
    Except.ok (a :: db)

/-- Modelled from the spec: reloading a framework base record by its
identifier. -/
def AbstractUser.getById (db : BaseDB) (i : Nat) : Option AbstractUser :=
  db.find? (fun v => v.id == i)

/-- Modelled from the spec: the backing store of User records. -/
abbrev DB := List User

/-- Creation of a User: src/core/models.py redefines no creation logic, so
it is the inherited framework behaviour (unique username) applied to the
User record. -/
def User.create (db : DB) (u : User) : Except CreateError DB :=
  if db.any (fun v => v.username == u.username) then
    Except.error CreateError.uniqueViolation
  else
    Except.ok (u :: db)

/-- Reloading a persisted User by identifier: inherited framework
behaviour applied to the User record. -/
def User.getById (db : DB) (i : Nat) : Option User :=
  db.find? (fun v => v.id == i)

/-- Credential validation on User: src/core/models.py redefines nothing,
so the call delegates to the base abstraction. -/
def User.check_password (u : User) (raw : String) : Bool :=
  u.toAbstractUser.check_password raw

/-- Permission check on User: src/core/models.py redefines nothing, so the
call delegates to the base abstraction. -/
def User.has_perm (u : User) (p : Nat) : Bool :=
  u.toAbstractUser.has_perm p

/-- Forgetting the (empty) subclass wrapper on a whole store. -/
def toBase (db : DB) : BaseDB := db.map User.toAbstractUser

/-- A concrete user record, used in witnesses. -/
def uA : Core.User := ⟨⟨1, "alice", "pw1", "a@x", true, false, false, 0, none, [], []⟩⟩

/-- A second concrete user record sharing only its username with `uA`,
used in witnesses. -/
def uB : Core.User := ⟨⟨2, "alice", "pw2", "b@x", false, true, true, 5, some 7, [1], [2]⟩⟩

/-- `List.any` over a map, for maps that change the element type. -/
theorem any_map_comp {α β : Type} (l : List α) (f : α → β) (p : β → Bool) :
    (l.map f).any p = l.any (p ∘ f) := by
  induction l with
  | nil => rfl
  | cons a l ih => simp [List.any_cons, ih]

/-- C1: for every username string u (and every value of the inherited
fields), constructing a User with username u and rendering it as text via
the string-representation method yields exactly u. -/
theorem str_of_constructed_eq_username
    (i : Nat) (u pw em : String) (act st su : Bool)
    (dj : Nat) (ll : Option Nat) (gs ps : List Nat) :
    User.toStr ⟨⟨i, u, pw, em, act, st, su, dj, ll, gs, ps⟩⟩ = u := rfl

/-- C2: the backing-store identifier is the fixed constant dd_users, it
differs from the framework default name, and it is the same for every
instance. -/
theorem db_table_is_dd_users :
    User.Meta.db_table = "dd_users" ∧
    (User.Meta.db_table == defaultDbTable) = false ∧
    ∀ u : Core.User, User.dbTableOf u = "dd_users" :=
  ⟨rfl, by decide, fun _ => rfl⟩

/-- C3: after a successful creation of u1, creating u2 with the same
username fails with a uniqueness-violation error, and the first creation
is unaffected (u1 is still in the store). -/
theorem duplicate_username_create_fails
    (db db1 : Core.DB) (u1 u2 : Core.User)
    (h1 : User.create db u1 = Except.ok db1)
    (h2 : u2.username = u1.username) :
    User.create db1 u2 = Except.error CreateError.uniqueViolation ∧
    u1 ∈ db1 := by
  unfold User.create at h1 ⊢
  by_cases hc : db.any (fun v => v.username == u1.username) = true
  · simp [hc] at h1
  · simp [hc] at h1
    subst h1
    refine ⟨?_, List.mem_cons_self _ _⟩
    simp [List.any_cons, h2]

/-- Witness for C3 at concrete inputs. -/
theorem duplicate_username_create_fails_witness :
    User.create [] uA = Except.ok [uA] ∧
    uB.username = uA.username ∧
    (User.create [uA] uB = Except.error CreateError.uniqueViolation ∧
      uA ∈ [uA]) :=
  ⟨rfl, by decide,
    duplicate_username_create_fails [] [uA] uA uB rfl (by decide)⟩

/-- C4: the User entity adds no field: the record is in bijection with the
framework base abstraction, each direction being the identity on the
shared fields. -/
theorem user_adds_no_fields :
    (∀ a : Core.AbstractUser, (User.mk a).toAbstractUser = a) ∧
    (∀ u : Core.User, User.mk u.toAbstractUser = u) :=
  ⟨fun _ => rfl, fun _ => rfl⟩

/-- C5: every operation other than the string representation and the
storage-name configuration — credential validation, permission checks,
creation and reloading — agrees with the framework base abstraction on
every input, up to the field-preserving embedding of User records into
base records. -/
theorem inherited_ops_agree_with_base :
    (∀ (u : Core.User) (raw : String),
      u.check_password raw = u.toAbstractUser.check_password raw) ∧
    (∀ (u : Core.User) (p : Nat),
      u.has_perm p = u.toAbstractUser.has_perm p) ∧
    (∀ (db : Core.DB) (u : Core.User),
      (User.create db u).map toBase =
        AbstractUser.create (toBase db) u.toAbstractUser) ∧
    (∀ (db : Core.DB) (i : Nat),
      (User.getById db i).map User.toAbstractUser =
        AbstractUser.getById (toBase db) i) := by
  refine ⟨fun _ _ => rfl, fun _ _ => rfl, ?_, ?_⟩
  · intro db u
    unfold User.create AbstractUser.create toBase
    have hcond : (db.map User.toAbstractUser).any
        (fun v => v.username == u.toAbstractUser.username) =
        db.any (fun v => v.username == u.username) := by
      rw [any_map_comp]
      rfl
    rw [hcond]
    cases hc : db.any (fun v => v.username == u.username) with
    | true => rfl
    | false => rfl
  · intro db i
    unfold User.getById AbstractUser.getById toBase
    rw [List.find?_map]
    rfl

/-- C6: a successful creation followed by reloading at the identifier of
the created record yields a record whose username equals the original. -/
theorem create_getById_roundtrip
    (db db1 : Core.DB) (u : Core.User)
    (h : User.create db u = Except.ok db1) :
    ∃ v, User.getById db1 u.id = some v ∧ v.username = u.username := by
  unfold User.create at h
  by_cases hc : db.any (fun v => v.username == u.username) = true
  · simp [hc] at h
  · simp [hc] at h
    subst h
    refine ⟨u, ?_, rfl⟩
    unfold User.getById
    exact List.find?_cons_of_pos _ (by simp)

/-- Witness for C6 at concrete inputs. -/
theorem create_getById_roundtrip_witness :
    User.create [] uA = Except.ok [uA] ∧
    (∃ v, User.getById [uA] uA.id = some v ∧ v.username = uA.username) :=
  ⟨rfl, create_getById_roundtrip [] [uA] uA rfl⟩

/-- C7: a call to the string-representation method takes no input beyond
the receiver, always returns (the value of toStr), and leaves the receiver
— hence every field — unchanged. -/
theorem str_pure_no_side_effects (u : Core.User) :
    (User.strCall u).2 = u ∧ (User.strCall u).1 = User.toStr u :=
  ⟨rfl, rfl⟩

/-- C8: the string representation is total on every stored username with
no validity precondition: for every instance it returns the stored string
unchanged, in particular the empty string. -/
theorem str_total_no_validation :
    (∀ u : Core.User, User.toStr u = u.username) ∧
    User.toStr ⟨⟨0, "", "", "", true, false, false, 0, none, [], []⟩⟩ = "" :=
  ⟨fun _ => rfl, rfl⟩

/-- C9: the string representation depends only on the username field: two
instances with equal usernames render identically whatever their other
fields. -/
theorem str_depends_only_on_username (u1 u2 : Core.User)
    (h : u1.username = u2.username) :
    User.toStr u1 = User.toStr u2 := h

/-- Witness for C9: two records equal only in their username render the
same text. -/
theorem str_depends_only_on_username_witness :
    uA.username = uB.username ∧ uA ≠ uB ∧
    User.toStr uA = User.toStr uB :=
  ⟨by decide, by decide, str_depends_only_on_username uA uB (by decide)⟩

end Core
